import Mathlib

/-!
Shallow embedding of the flowstream diagram tool (src/flowstream_v2.py,
src/flowstream.py, src/streamfd.py): the node/connection data model, the
add/remove operations of `diagram_page_logic`, the save/load persistence
functions, and the node/edge emission of the rendering functions.
-/

namespace Flowstream

/-- A diagram node, `{"name": node_name, "type": node_type}` as appended by
the Add Node branch of `diagram_page_logic`. -/
structure Node where
  name : String
  type : String
deriving DecidableEq, Repr

/-- A connection (a.k.a. flow), `{"source": ..., "destination": ...,
"label": ..., "bidirectional": ...}` as appended by the Add Connection
branch of `diagram_page_logic` in flowstream_v2.py / flowstream.py. -/
structure Connection where
  source : String
  destination : String
  label : String
  bidirectional : Bool
deriving DecidableEq, Repr

/-- The per-diagram-type in-memory state held in `session_state`:
`session_state[f'{diagram_type}_nodes']` and
`session_state[f'{diagram_type}_connections']`. -/
structure DiagramState where
  nodes : List Node
  connections : List Connection
deriving DecidableEq, Repr

/-- Embeds the Add Node button branch of `diagram_page_logic`
(flowstream_v2.py lines 207-212; identical in flowstream.py lines 250-255):
`if node_name: nodes.append({"name": node_name, "type": node_type})`
`else: st.warning(...)`. The Bool is `true` when the node was appended and
`false` when the empty-name validation warning fired. -/
def addNode (nodes : List Node) (node_name node_type : String) :
    List Node × Bool :=
  if node_name ≠ "" then (nodes ++ [⟨node_name, node_type⟩], true)
  else (nodes, false)

/-- Embeds the Add Connection button branch of `diagram_page_logic`
(flowstream_v2.py lines 229-238; flowstream.py lines 276-285):
`if source and destination and label and source != destination:`
`    connections.append({...})` else a validation warning. The Bool is
`true` when the connection was appended. -/
def addConnection (connections : List Connection)
    (source destination label : String) (bidirectional : Bool) :
    List Connection × Bool :=
  if source ≠ "" ∧ destination ≠ "" ∧ label ≠ "" ∧ source ≠ destination then
    (connections ++ [⟨source, destination, label, bidirectional⟩], true)
  else (connections, false)

/-- Embeds the node delete button of `diagram_page_logic`
(flowstream_v2.py lines 213-220): `del session_state[f'..._nodes'][i]`,
with the connection list untouched. -/
def removeNode (st : DiagramState) (i : Nat) : DiagramState :=
  ⟨st.nodes.eraseIdx i, st.connections⟩

/-- Embeds the connection delete button of `diagram_page_logic`
(flowstream_v2.py lines 239-247): `del session_state[f'..._connections'][i]`,
with the node list untouched. -/
def removeConnection (st : DiagramState) (i : Nat) : DiagramState :=
  ⟨st.nodes, st.connections.eraseIdx i⟩

/-! ### Persistence (flowstream_v2.py `save_data` / `load_data` and the Load
button of `diagram_page_logic`) -/

/-- The content of a snapshot file on disk. `valid` is a JSON object whose
"nodes" / "connections" keys may each be present or absent (`data.get` in
`load_data` defaults an absent key to `[]`); `invalid` is content that
`json.load` rejects with `JSONDecodeError`. -/
inductive FileContent where
  | valid (nodes : Option (List Node)) (connections : Option (List Connection))
  | invalid
deriving DecidableEq

/-- The file system as an association list from file path to content; a
lookup returns the most recently written entry. A missing path is a missing
file (`os.path.exists` false). -/
abbrev FileStore := List (String × FileContent)

/-- The snapshot path derived in `save_data` / `load_data`
(flowstream_v2.py lines 83 and 101): `f"{diagram_type}_data_{filename}.json"`. -/
def dataFilepath (diagram_type filename : String) : String :=
  diagram_type ++ "_data_" ++ filename ++ ".json"

/-- Embeds `save_data` (flowstream_v2.py lines 96-105): with an empty
filename it only warns and writes nothing; otherwise it writes
`{"nodes": nodes, "connections": connections}` to the derived path,
overwriting any previous content at that path. -/
def save_data (store : FileStore) (diagram_type : String) (nodes : List Node)
    (connections : List Connection) (filename : String) : FileStore :=
  if filename = "" then store
  else (dataFilepath diagram_type filename,
        FileContent.valid (some nodes) (some connections)) :: store

/-- Embeds `load_data` (flowstream_v2.py lines 78-94). Returns the pair the
Python function returns: `(None, None)` for an empty filename;
`(data.get("nodes", []), data.get("connections", []))` when the file exists
and parses; `([], [])` when the JSON is malformed (`JSONDecodeError` branch)
or the file does not exist (the `else` warning branch). -/
def load_data (store : FileStore) (diagram_type filename : String) :
    Option (List Node) × Option (List Connection) :=
  if filename = "" then (none, none)
  else
    match store.lookup (dataFilepath diagram_type filename) with
    | some (FileContent.valid ns cs) => (some (ns.getD []), some (cs.getD []))
    | some FileContent.invalid => (some [], some [])
    | none => (some [], some [])

/-- Embeds the Load button branch of `diagram_page_logic`
(flowstream_v2.py lines 262-272): with a selected filename it calls
`load_data` and, whenever neither component is `None`, replaces both
in-memory sequences with the loaded ones; otherwise the state is kept. -/
def loadButton (store : FileStore) (diagram_type : String) (st : DiagramState)
    (load_filename : String) : DiagramState :=
  if load_filename = "" then st
  else
    match load_data store diagram_type load_filename with
    | (some ns, some cs) => ⟨ns, cs⟩
    | _ => st

/-! ### Persistence, older layout (flowstream.py `save_flows` / `load_flows`
and its Load Flows button) -/

/-- Content of a flows snapshot file of flowstream.py: a JSON array of
connections, or malformed content. -/
inductive FlowsFileContent where
  | valid (flows : List Connection)
  | invalid
deriving DecidableEq

/-- File system for the older layout's flow snapshots. -/
abbrev FlowStore := List (String × FlowsFileContent)

/-- The path derived in `save_flows` / `load_flows` (flowstream.py lines 131
and 148): `f"{diagram_type}_flows_{filename}.json"`. -/
def flowsFilepath (diagram_type filename : String) : String :=
  diagram_type ++ "_flows_" ++ filename ++ ".json"

/-- Embeds `save_flows` (flowstream.py lines 143-151): warns and writes
nothing on an empty filename, otherwise dumps the flows list to the derived
path. Only the flows are persisted; nodes are not. -/
def save_flows (store : FlowStore) (diagram_type : String)
    (flows : List Connection) (filename : String) : FlowStore :=
  if filename = "" then store
  else (flowsFilepath diagram_type filename, FlowsFileContent.valid flows) :: store

/-- Embeds `load_flows` (flowstream.py lines 126-141): `None` for an empty
filename, a missing file, or malformed JSON; otherwise the parsed flows. -/
def load_flows (store : FlowStore) (diagram_type filename : String) :
    Option (List Connection) :=
  if filename = "" then none
  else
    match store.lookup (flowsFilepath diagram_type filename) with
    | some (FlowsFileContent.valid fl) => some fl
    | some FlowsFileContent.invalid => none
    | none => none

/-- Embeds the Load Flows button branch of flowstream.py's
`diagram_page_logic` (lines 315-324): on a `None` result the state is kept,
otherwise only the flows sequence is replaced. -/
def loadFlowsButton (store : FlowStore) (diagram_type : String)
    (st : DiagramState) (load_filename : String) : DiagramState :=
  if load_filename = "" then st
  else
    match load_flows store diagram_type load_filename with
    | some fl => ⟨st.nodes, fl⟩
    | none => st

/-! ### Rendering adapter -/

/-- The `shape_map` dictionary of flowstream_v2.py's `draw_node`
(lines 11-24). -/
def shape_map : List (String × String) :=
  [("Process", "ellipse"),
   ("External Entity", "square"),
   ("Data Store", "cylinder"),
   ("Event", "circle"),
   ("Gateway", "diamond"),
   ("Component", "component"),
   ("Node", "box3d"),
   ("Class", "record"),
   ("Entity", "box"),
   ("Attribute", "oval"),
   ("Decision", "diamond"),
   ("Start/End", "ellipse")]

/-- The shape chosen by flowstream_v2.py's `draw_node` (line 25):
`shape_map.get(node_type, "ellipse")`. -/
def draw_node_shape_v2 (node_type : String) : String :=
  (shape_map.lookup node_type).getD "ellipse"

/-- The shape chosen by the `draw_node` of flowstream.py (lines 9-30) and
streamfd.py (lines 9-30), an if/elif chain with an `else` defaulting to
ellipse; it has no Attribute, Decision or Start/End branch. -/
def draw_node_shape_v1 (node_type : String) : String :=
  if node_type = "Process" then "ellipse"
  else if node_type = "External Entity" then "square"
  else if node_type = "Data Store" then "cylinder"
  else if node_type = "Event" then "circle"
  else if node_type = "Gateway" then "diamond"
  else if node_type = "Component" then "component"
  else if node_type = "Node" then "box3d"
  else if node_type = "Class" then "record"
  else if node_type = "Entity" then "box"
  else "ellipse"

/-- Whether a node name is in the `active_nodes` set built by
`generate_diagram` (flowstream_v2.py lines 36-39): the sources and
destinations of all connections. -/
def isActive (connections : List Connection) (name : String) : Bool :=
  connections.any (fun c => c.source == name || c.destination == name)

/-- The nodes `generate_diagram` draws (flowstream_v2.py lines 41-43), in
node-list order: `if node["name"] in active_nodes or not connections:
draw_node(...)`. -/
def generate_diagram_nodes (nodes : List Node)
    (connections : List Connection) : List Node :=
  nodes.filter (fun nd => isActive connections nd.name || connections.isEmpty)

/-- A drawing instruction for one edge: endpoints, label, and whether the
edge is the `style='invis'` spacing edge. -/
structure Edge where
  src : String
  dst : String
  label : String
  invis : Bool
deriving DecidableEq, Repr

/-- The edges one connection contributes in `generate_diagram`
(flowstream_v2.py lines 45-50): the labeled forward edge, then, when
`bidirectional`, the invisible reverse edge with empty label. The same loop
body appears in flowstream.py's generate functions (e.g. lines 43-46). -/
def connectionEdges (c : Connection) : List Edge :=
  ⟨c.source, c.destination, c.label, false⟩ ::
    (if c.bidirectional then [⟨c.destination, c.source, "", true⟩] else [])

/-- The edge-emission loop of `generate_diagram` over the whole connection
list, in order. -/
def generate_diagram_edges : List Connection → List Edge
  | [] => []
  | c :: rest => connectionEdges c ++ generate_diagram_edges rest

/-- A flow of streamfd.py: its `diagram_page_logic` appends
`{"source": ..., "destination": ..., "label": ...}` with no bidirectional
field (line 212). -/
structure Flow where
  source : String
  destination : String
  label : String
deriving DecidableEq, Repr

/-- The edge-emission loop of streamfd.py's `generate_data_flow_diagram`
(lines 40-41): one labeled forward edge per flow, nothing else. -/
def generate_dfd_edges_streamfd : List Flow → List Edge
  | [] => []
  | f :: rest => ⟨f.source, f.destination, f.label, false⟩ ::
      generate_dfd_edges_streamfd rest

/-! ### Theorems -/

/-- C3: adding a node with a non-empty name appends the `{name, type}` entry
at the end and increases the node count by exactly one; adding with an empty
name leaves the node list unchanged and fires the validation warning
(the returned flag is `false`). -/
theorem addNode_count_spec (nodes : List Node) (node_name node_type : String) :
    (node_name ≠ "" →
      addNode nodes node_name node_type =
        (nodes ++ [⟨node_name, node_type⟩], true) ∧
      (addNode nodes node_name node_type).1.length = nodes.length + 1) ∧
    (node_name = "" →
      addNode nodes node_name node_type = (nodes, false)) := by
  constructor
  · intro h
    simp [addNode, h]
  · intro h
    simp [addNode, h]

/-- Witness for `addNode_count_spec` at concrete inputs. -/
theorem addNode_count_spec_witness :
    (addNode [] "A" "Process" = ([⟨"A", "Process"⟩], true) ∧
      (addNode [] "A" "Process").1.length = List.length ([] : List Node) + 1) ∧
    addNode ([] : List Node) "" "Process" = ([], false) :=
  ⟨(addNode_count_spec [] "A" "Process").1 (by decide),
   (addNode_count_spec [] "" "Process").2 rfl⟩

/-- C4: adding a connection with an empty source, destination or label, or
with source equal to destination, leaves the connection list unchanged and
fires the validation warning; in particular a self-loop with any non-empty
source is never added. -/
theorem addConnection_validation_spec (connections : List Connection)
    (source destination label : String) (bidirectional : Bool) :
    ((source = "" ∨ destination = "" ∨ label = "" ∨ source = destination) →
      addConnection connections source destination label bidirectional =
        (connections, false)) ∧
    (source ≠ "" →
      addConnection connections source source label bidirectional =
        (connections, false)) := by
  constructor
  · intro h
    have hc : ¬(source ≠ "" ∧ destination ≠ "" ∧ label ≠ "" ∧
        source ≠ destination) := by tauto
    simp only [addConnection, if_neg hc]
  · intro h
    have hc : ¬(source ≠ "" ∧ source ≠ "" ∧ label ≠ "" ∧
        source ≠ source) := by tauto
    simp only [addConnection, if_neg hc]

/-- Witness for `addConnection_validation_spec` at concrete inputs. -/
theorem addConnection_validation_spec_witness :
    addConnection [] "" "B" "f" false = ([], false) ∧
    addConnection ([] : List Connection) "A" "A" "f" true = ([], false) :=
  ⟨(addConnection_validation_spec [] "" "B" "f" false).1 (Or.inl rfl),
   (addConnection_validation_spec [] "A" "A" "f" true).2 (by decide)⟩

/-- C5: deleting the node at a valid index removes exactly that node by
position (the list becomes the prefix before it followed by the suffix after
it, so the count drops by one) and the connection sequence is entirely
unchanged. -/
theorem removeNode_frame_spec (st : DiagramState) (i : Nat)
    (h : i < st.nodes.length) :
    (removeNode st i).nodes = st.nodes.take i ++ st.nodes.drop (i + 1) ∧
    (removeNode st i).nodes.length = st.nodes.length - 1 ∧
    (removeNode st i).connections = st.connections := by
  refine ⟨List.eraseIdx_eq_take_drop_succ st.nodes i, ?_, rfl⟩
  have := List.length_eraseIdx_add_one h
  simp only [removeNode]
  omega

/-- Witness for `removeNode_frame_spec` at a concrete state: removing node 0
keeps the connection referencing its name. -/
theorem removeNode_frame_spec_witness :
    (removeNode ⟨[⟨"A", "Process"⟩, ⟨"B", "Process"⟩],
        [⟨"A", "B", "f", false⟩]⟩ 0).nodes =
      List.take 0 [⟨"A", "Process"⟩, ⟨"B", "Process"⟩] ++
        List.drop 1 [⟨"A", "Process"⟩, ⟨"B", "Process"⟩] ∧
    (removeNode ⟨[⟨"A", "Process"⟩, ⟨"B", "Process"⟩],
        [⟨"A", "B", "f", false⟩]⟩ 0).nodes.length = 2 - 1 ∧
    (removeNode ⟨[⟨"A", "Process"⟩, ⟨"B", "Process"⟩],
        [⟨"A", "B", "f", false⟩]⟩ 0).connections = [⟨"A", "B", "f", false⟩] :=
  removeNode_frame_spec ⟨[⟨"A", "Process"⟩, ⟨"B", "Process"⟩],
    [⟨"A", "B", "f", false⟩]⟩ 0 (by decide)

/-- C6: duplicate node names are never rejected: when the node list already
holds an entry named `n` and `n` is non-empty, adding another node named `n`
succeeds, appends the new entry, increases the count by one, and both
entries are in the result. -/
theorem addNode_duplicate_spec (nodes : List Node) (n t t0 : String)
    (hn : n ≠ "") (hmem : (⟨n, t0⟩ : Node) ∈ nodes) :
    addNode nodes n t = (nodes ++ [⟨n, t⟩], true) ∧
    (addNode nodes n t).1.length = nodes.length + 1 ∧
    (⟨n, t0⟩ : Node) ∈ (addNode nodes n t).1 ∧
    (⟨n, t⟩ : Node) ∈ (addNode nodes n t).1 := by
  refine ⟨by simp [addNode, hn], by simp [addNode, hn], ?_, ?_⟩
  · simp only [addNode, if_pos hn, List.mem_append]
    exact Or.inl hmem
  · simp [addNode, hn]

/-- Witness for `addNode_duplicate_spec`: a second node named "A" is
appended next to the existing one. -/
theorem addNode_duplicate_spec_witness :
    addNode [⟨"A", "Process"⟩] "A" "Data Store" =
      ([⟨"A", "Process"⟩, ⟨"A", "Data Store"⟩], true) ∧
    (addNode [⟨"A", "Process"⟩] "A" "Data Store").1.length = 1 + 1 ∧
    (⟨"A", "Process"⟩ : Node) ∈ (addNode [⟨"A", "Process"⟩] "A" "Data Store").1 ∧
    (⟨"A", "Data Store"⟩ : Node) ∈
      (addNode [⟨"A", "Process"⟩] "A" "Data Store").1 := by
  have h := addNode_duplicate_spec [⟨"A", "Process"⟩] "A" "Data Store" "Process"
    (by decide) (by simp)
  simpa using h

/-- C1: save-then-load round-trip. Under a non-empty filename,
flowstream_v2's `save_data` followed by `load_data` of the same name returns
exactly the saved node and connection sequences, so pressing Load after Save
reconstructs the saved diagram state whatever the in-memory state was in
between; and in flowstream.py, `load_flows` after `save_flows` returns the
saved flow sequence, so Load Flows after Save Flows leaves the diagram state
(nodes kept in memory, flows reloaded from file) identical to the saved one. -/
theorem save_load_roundtrip (store : FileStore) (fstore : FlowStore)
    (diagram_type : String) (ns : List Node) (cs : List Connection)
    (filename : String) (h : filename ≠ "") :
    load_data (save_data store diagram_type ns cs filename)
        diagram_type filename = (some ns, some cs) ∧
    (∀ st0 : DiagramState,
      loadButton (save_data store diagram_type ns cs filename)
        diagram_type st0 filename = ⟨ns, cs⟩) ∧
    load_flows (save_flows fstore diagram_type cs filename)
        diagram_type filename = some cs ∧
    loadFlowsButton (save_flows fstore diagram_type cs filename)
        diagram_type ⟨ns, cs⟩ filename = ⟨ns, cs⟩ := by
  have h1 : load_data (save_data store diagram_type ns cs filename)
      diagram_type filename = (some ns, some cs) := by
    simp [load_data, save_data, h, List.lookup]
  have h2 : load_flows (save_flows fstore diagram_type cs filename)
      diagram_type filename = some cs := by
    simp [load_flows, save_flows, h, List.lookup]
  refine ⟨h1, fun st0 => ?_, h2, ?_⟩
  · simp [loadButton, h, h1]
  · simp [loadFlowsButton, h, h2]

/-- Witness for `save_load_roundtrip` at a concrete diagram and filename. -/
theorem save_load_roundtrip_witness :
    load_data (save_data [] "dfd" [⟨"A", "Process"⟩] [⟨"A", "B", "f", true⟩] "s")
        "dfd" "s" = (some [⟨"A", "Process"⟩], some [⟨"A", "B", "f", true⟩]) ∧
    (∀ st0 : DiagramState,
      loadButton (save_data [] "dfd" [⟨"A", "Process"⟩] [⟨"A", "B", "f", true⟩] "s")
        "dfd" st0 "s" = ⟨[⟨"A", "Process"⟩], [⟨"A", "B", "f", true⟩]⟩) ∧
    load_flows (save_flows [] "dfd" [⟨"A", "B", "f", true⟩] "s") "dfd" "s" =
      some [⟨"A", "B", "f", true⟩] ∧
    loadFlowsButton (save_flows [] "dfd" [⟨"A", "B", "f", true⟩] "s") "dfd"
      ⟨[⟨"A", "Process"⟩], [⟨"A", "B", "f", true⟩]⟩ "s" =
        ⟨[⟨"A", "Process"⟩], [⟨"A", "B", "f", true⟩]⟩ :=
  save_load_roundtrip [] [] "dfd" [⟨"A", "Process"⟩] [⟨"A", "B", "f", true⟩]
    "s" (by decide)

/-- C2 fails on the code: in flowstream_v2, `load_data` returns `([], [])` —
not `(None, None)` — both when the derived file is missing and when its JSON
is malformed, and the Load button then replaces the in-memory state with
those empty lists. Here a one-node state is cleared by a load of the missing
name "x" and again by a load of an unparsable file. -/
theorem load_failure_clears_state :
    loadButton ([] : FileStore) "dfd" ⟨[⟨"A", "Process"⟩], []⟩ "x" =
      (⟨[], []⟩ : DiagramState) ∧
    loadButton [("dfd_data_x.json", FileContent.invalid)] "dfd"
        ⟨[⟨"A", "Process"⟩], []⟩ "x" = (⟨[], []⟩ : DiagramState) ∧
    (⟨[], []⟩ : DiagramState) ≠ ⟨[⟨"A", "Process"⟩], []⟩ := by
  decide

/-- C10: a snapshot whose JSON parses but lacks the "nodes" key, the
"connections" key, or both loads without error: the missing key defaults to
the empty list and the Load button replaces the in-memory sequences with the
loaded ones. -/
theorem load_missing_keys_defaults (store : FileStore)
    (diagram_type filename : String) (st : DiagramState)
    (ns : List Node) (cs : List Connection) (h : filename ≠ "") :
    (store.lookup (dataFilepath diagram_type filename) =
        some (FileContent.valid none (some cs)) →
      load_data store diagram_type filename = (some [], some cs) ∧
      loadButton store diagram_type st filename = ⟨[], cs⟩) ∧
    (store.lookup (dataFilepath diagram_type filename) =
        some (FileContent.valid (some ns) none) →
      load_data store diagram_type filename = (some ns, some []) ∧
      loadButton store diagram_type st filename = ⟨ns, []⟩) ∧
    (store.lookup (dataFilepath diagram_type filename) =
        some (FileContent.valid none none) →
      load_data store diagram_type filename = (some [], some []) ∧
      loadButton store diagram_type st filename = ⟨[], []⟩) := by
  refine ⟨fun hl => ?_, fun hl => ?_, fun hl => ?_⟩ <;>
    simp [load_data, loadButton, h, hl]

/-- Witness for `load_missing_keys_defaults`: loading files missing the
"nodes" key, the "connections" key, and both keys. -/
theorem load_missing_keys_defaults_witness :
    loadButton [("dfd_data_x.json", FileContent.valid none
        (some [⟨"A", "B", "f", false⟩]))] "dfd" ⟨[⟨"A", "Process"⟩], []⟩ "x" =
      ⟨[], [⟨"A", "B", "f", false⟩]⟩ ∧
    loadButton [("dfd_data_x.json", FileContent.valid
        (some [⟨"A", "Process"⟩]) none)] "dfd" ⟨[], []⟩ "x" =
      ⟨[⟨"A", "Process"⟩], []⟩ ∧
    loadButton [("dfd_data_x.json", FileContent.valid none none)] "dfd"
        ⟨[⟨"A", "Process"⟩], []⟩ "x" = ⟨[], []⟩ :=
  ⟨((load_missing_keys_defaults
      [("dfd_data_x.json", FileContent.valid none (some [⟨"A", "B", "f", false⟩]))]
      "dfd" "x" ⟨[⟨"A", "Process"⟩], []⟩ [] [⟨"A", "B", "f", false⟩]
      (by decide)).1 (by decide)).2,
   ((load_missing_keys_defaults
      [("dfd_data_x.json", FileContent.valid (some [⟨"A", "Process"⟩]) none)]
      "dfd" "x" ⟨[], []⟩ [⟨"A", "Process"⟩] [] (by decide)).2.1 (by decide)).2,
   ((load_missing_keys_defaults
      [("dfd_data_x.json", FileContent.valid none none)]
      "dfd" "x" ⟨[⟨"A", "Process"⟩], []⟩ [] [] (by decide)).2.2 (by decide)).2⟩

/-- C7 counterexample: the claim's table is not what every version's
`draw_node` implements. The `draw_node` of flowstream.py / streamfd.py
(cited by the claim) has no Decision or Attribute branch, so a Decision node
is rendered with shape "ellipse", not the claimed "diamond", and an
Attribute node with "ellipse", not the claimed "oval". -/
theorem draw_node_v1_decision_counterexample :
    draw_node_shape_v1 "Decision" = "ellipse" ∧
    draw_node_shape_v1 "Decision" ≠ "diamond" ∧
    draw_node_shape_v1 "Attribute" = "ellipse" ∧
    draw_node_shape_v1 "Attribute" ≠ "oval" := by
  decide

/-- C7 amended: flowstream_v2's `draw_node` follows the full claimed table
with every unmapped type defaulting to ellipse; the `draw_node` of
flowstream.py and streamfd.py follows the table only on its first nine
entries (Process through Entity) and renders Attribute, Decision, Start/End
and every other unmapped type with the default ellipse. -/
theorem shape_table_spec (t : String) :
    (draw_node_shape_v2 "Process" = "ellipse" ∧
     draw_node_shape_v2 "External Entity" = "square" ∧
     draw_node_shape_v2 "Data Store" = "cylinder" ∧
     draw_node_shape_v2 "Event" = "circle" ∧
     draw_node_shape_v2 "Gateway" = "diamond" ∧
     draw_node_shape_v2 "Component" = "component" ∧
     draw_node_shape_v2 "Node" = "box3d" ∧
     draw_node_shape_v2 "Class" = "record" ∧
     draw_node_shape_v2 "Entity" = "box" ∧
     draw_node_shape_v2 "Attribute" = "oval" ∧
     draw_node_shape_v2 "Decision" = "diamond" ∧
     draw_node_shape_v2 "Start/End" = "ellipse") ∧
    (t ∉ ["Process", "External Entity", "Data Store", "Event", "Gateway",
          "Component", "Node", "Class", "Entity", "Attribute", "Decision",
          "Start/End"] →
      draw_node_shape_v2 t = "ellipse") ∧
    (draw_node_shape_v1 "Process" = "ellipse" ∧
     draw_node_shape_v1 "External Entity" = "square" ∧
     draw_node_shape_v1 "Data Store" = "cylinder" ∧
     draw_node_shape_v1 "Event" = "circle" ∧
     draw_node_shape_v1 "Gateway" = "diamond" ∧
     draw_node_shape_v1 "Component" = "component" ∧
     draw_node_shape_v1 "Node" = "box3d" ∧
     draw_node_shape_v1 "Class" = "record" ∧
     draw_node_shape_v1 "Entity" = "box" ∧
     draw_node_shape_v1 "Attribute" = "ellipse" ∧
     draw_node_shape_v1 "Decision" = "ellipse" ∧
     draw_node_shape_v1 "Start/End" = "ellipse") ∧
    (t ∉ ["Process", "External Entity", "Data Store", "Event", "Gateway",
          "Component", "Node", "Class", "Entity"] →
      draw_node_shape_v1 t = "ellipse") := by
  refine ⟨by decide, fun ht => ?_, by decide, fun ht => ?_⟩
  · simp only [List.mem_cons, List.not_mem_nil, or_false, not_or] at ht
    obtain ⟨h1, h2, h3, h4, h5, h6, h7, h8, h9, h10, h11, h12⟩ := ht
    simp [draw_node_shape_v2, shape_map, List.lookup,
      beq_eq_false_iff_ne.mpr h1, beq_eq_false_iff_ne.mpr h2,
      beq_eq_false_iff_ne.mpr h3, beq_eq_false_iff_ne.mpr h4,
      beq_eq_false_iff_ne.mpr h5, beq_eq_false_iff_ne.mpr h6,
      beq_eq_false_iff_ne.mpr h7, beq_eq_false_iff_ne.mpr h8,
      beq_eq_false_iff_ne.mpr h9, beq_eq_false_iff_ne.mpr h10,
      beq_eq_false_iff_ne.mpr h11, beq_eq_false_iff_ne.mpr h12]
  · simp only [List.mem_cons, List.not_mem_nil, or_false, not_or] at ht
    obtain ⟨h1, h2, h3, h4, h5, h6, h7, h8, h9⟩ := ht
    simp [draw_node_shape_v1, h1, h2, h3, h4, h5, h6, h7, h8, h9]

/-- Witness for `shape_table_spec` at the unmapped type "Interface". -/
theorem shape_table_spec_witness :
    draw_node_shape_v2 "Interface" = "ellipse" ∧
    draw_node_shape_v1 "Interface" = "ellipse" :=
  ⟨(shape_table_spec "Interface").2.1 (by decide),
   (shape_table_spec "Interface").2.2.2 (by decide)⟩

/-- Edge count of the v2 emission loop: each connection contributes two
edges when bidirectional and one otherwise. -/
lemma generate_diagram_edges_length (cs : List Connection) :
    (generate_diagram_edges cs).length =
      (cs.map (fun d => if d.bidirectional then 2 else 1)).sum := by
  induction cs with
  | nil => rfl
  | cons c rest ih =>
      simp only [generate_diagram_edges, connectionEdges, List.length_append,
        List.map_cons, List.sum_cons, ih, List.length_cons]
      cases c.bidirectional <;> simp

/-- The streamfd emission loop maps each flow to its single forward edge. -/
lemma generate_dfd_edges_streamfd_eq_map (fs : List Flow) :
    generate_dfd_edges_streamfd fs =
      fs.map (fun f => ⟨f.source, f.destination, f.label, false⟩) := by
  induction fs with
  | nil => rfl
  | cons f rest ih => simp [generate_dfd_edges_streamfd, ih]

/-- C8: in flowstream_v2's `generate_diagram`, every connection emits the
labeled forward edge; a bidirectional connection emits exactly that edge
followed by the invisible reverse edge (two edges), a non-bidirectional one
exactly the forward edge (one edge), and the total edge count is the sum
over connections of 2 or 1 accordingly. streamfd.py's
`generate_data_flow_diagram` emits exactly one forward edge per flow. -/
theorem edge_emission_spec (c : Connection) (cs : List Connection)
    (fs : List Flow) :
    (c.bidirectional = true →
      connectionEdges c = [⟨c.source, c.destination, c.label, false⟩,
                           ⟨c.destination, c.source, "", true⟩]) ∧
    (c.bidirectional = false →
      connectionEdges c = [⟨c.source, c.destination, c.label, false⟩]) ∧
    (connectionEdges c).length = (if c.bidirectional then 2 else 1) ∧
    (generate_diagram_edges cs).length =
      (cs.map (fun d => if d.bidirectional then 2 else 1)).sum ∧
    generate_dfd_edges_streamfd fs =
      fs.map (fun f => ⟨f.source, f.destination, f.label, false⟩) ∧
    (generate_dfd_edges_streamfd fs).length = fs.length := by
  refine ⟨fun h => by simp [connectionEdges, h],
          fun h => by simp [connectionEdges, h], ?_,
          generate_diagram_edges_length cs,
          generate_dfd_edges_streamfd_eq_map fs, ?_⟩
  · cases hb : c.bidirectional <;> simp [connectionEdges, hb]
  · rw [generate_dfd_edges_streamfd_eq_map]
    exact List.length_map fs _

/-- Witness for `edge_emission_spec` at a concrete bidirectional
connection, a two-connection list, and a one-flow list. -/
theorem edge_emission_spec_witness :
    connectionEdges ⟨"A", "B", "f", true⟩ =
      [⟨"A", "B", "f", false⟩, ⟨"B", "A", "", true⟩] ∧
    connectionEdges ⟨"A", "B", "f", false⟩ = [⟨"A", "B", "f", false⟩] ∧
    (generate_diagram_edges [⟨"A", "B", "f", true⟩, ⟨"B", "C", "g", false⟩]).length
      = 3 ∧
    generate_dfd_edges_streamfd [⟨"A", "B", "f"⟩] = [⟨"A", "B", "f", false⟩] :=
  ⟨(edge_emission_spec ⟨"A", "B", "f", true⟩ [] []).1 rfl,
   (edge_emission_spec ⟨"A", "B", "f", false⟩ [] []).2.1 rfl,
   by
    have h := (edge_emission_spec ⟨"A", "B", "f", true⟩
      [⟨"A", "B", "f", true⟩, ⟨"B", "C", "g", false⟩] []).2.2.2.1
    simpa using h,
   by
    have h := (edge_emission_spec ⟨"A", "B", "f", true⟩ []
      [⟨"A", "B", "f"⟩]).2.2.2.2.1
    simpa using h⟩

/-- C9: in flowstream_v2's `generate_diagram`, when the connection list is
empty every node is drawn; otherwise a node is drawn exactly when it is in
the node list and its name is the source or destination of at least one
connection. -/
theorem generate_diagram_nodes_spec (nodes : List Node)
    (connections : List Connection) :
    (connections = [] → generate_diagram_nodes nodes connections = nodes) ∧
    (connections ≠ [] → ∀ nd : Node,
      nd ∈ generate_diagram_nodes nodes connections ↔
        nd ∈ nodes ∧ ∃ c ∈ connections,
          c.source = nd.name ∨ c.destination = nd.name) := by
  constructor
  · intro h
    subst h
    simp [generate_diagram_nodes]
  · intro h nd
    have he : connections.isEmpty = false := by
      cases connections with
      | nil => exact absurd rfl h
      | cons c rest => rfl
    simp [generate_diagram_nodes, isActive, he, List.mem_filter,
      List.any_eq_true, beq_iff_eq]

/-- Witness for `generate_diagram_nodes_spec`: with no connections every
node is drawn; with one connection A→B, node C is drawn only if referenced,
which it is not. -/
theorem generate_diagram_nodes_spec_witness :
    generate_diagram_nodes [⟨"A", "Process"⟩] [] = [⟨"A", "Process"⟩] ∧
    ((⟨"C", "Process"⟩ : Node) ∈ generate_diagram_nodes
        [⟨"A", "Process"⟩, ⟨"B", "Process"⟩, ⟨"C", "Process"⟩]
        [⟨"A", "B", "f", false⟩] ↔
      (⟨"C", "Process"⟩ : Node) ∈
        [(⟨"A", "Process"⟩ : Node), ⟨"B", "Process"⟩, ⟨"C", "Process"⟩] ∧
      ∃ c ∈ [(⟨"A", "B", "f", false⟩ : Connection)],
        c.source = "C" ∨ c.destination = "C") :=
  ⟨(generate_diagram_nodes_spec [⟨"A", "Process"⟩] []).1 rfl,
   (generate_diagram_nodes_spec
      [⟨"A", "Process"⟩, ⟨"B", "Process"⟩, ⟨"C", "Process"⟩]
      [⟨"A", "B", "f", false⟩]).2 (by decide) ⟨"C", "Process"⟩⟩

end Flowstream
